import Mathlib

/-!
# Verification of the NSB daemon and client protocol runtime

Shallow embedding of the Network Simulation Broker (nsb_beta) core, translated
from the C++ sources (`src/cpp/src/nsb_daemon.cc`, `src/cpp/src/nsb_client.cc`,
`src/src/nsb.h`).  Protobuf messages become plain structures with `Option`
fields standing for the presence bits (`has_metadata`, `has_src_id`, ...);
the daemon's socket I/O is abstracted into a pure handler step: each handler
takes the daemon state and the parsed incoming message and returns the new
state, the optional response frame written back on the same connection, and
the list of `(fd, frame)` pairs forwarded to other clients (PUSH mode).
-/

namespace NSB

/-- Manifest operation enum of the `nsbm` protobuf schema. -/
inductive Operation
  | INIT | PING | SEND | FETCH | POST | RECEIVE | FORWARD | EXIT
  deriving DecidableEq, Repr

/-- Manifest originator enum (`APP_CLIENT`, `SIM_CLIENT`, `DAEMON`). -/
inductive Originator
  | APP_CLIENT | SIM_CLIENT | DAEMON
  deriving DecidableEq, Repr

/-- Manifest status code enum. -/
inductive StatusCode
  | SUCCESS | FAILURE | MESSAGE | NO_MESSAGE
  deriving DecidableEq, Repr

/-- The `nsbm.Manifest` submessage: `{op, og, code}`. -/
structure Manifest where
  op : Operation
  og : Originator
  code : StatusCode
  deriving DecidableEq, Repr

/-- Embeds `Config::SystemMode` from `nsb.h`: PULL = 0, PUSH = 1. -/
inductive SystemMode
  | PULL | PUSH
  deriving DecidableEq, Repr

/-- Embeds `Config::SimulatorMode`: SYSTEM_WIDE = 0, PER_NODE = 1. -/
inductive SimulatorMode
  | SYSTEM_WIDE | PER_NODE
  deriving DecidableEq, Repr

/-- The daemon's `Config` struct (`nsb_daemon.h` / `nsb.h`), filled by
`NSBDaemon::configure` from the YAML file.  The database fields are carried
along but the store itself is out of scope. -/
structure Config where
  SYSTEM_MODE : SystemMode
  SIMULATOR_MODE : SimulatorMode
  USE_DB : Bool
  DB_ADDRESS : String
  DB_PORT : Int
  DB_NUM : Int
  deriving DecidableEq, Repr

/-- Embeds `nsbm.Metadata`: `{src_id, dest_id, payload_size}`.  `src_id` and
`dest_id` are proto3 `optional` fields, so presence (`has_src_id`) is
modelled with `Option`; reading an absent field yields the empty string. -/
structure Metadata where
  src_id : Option String
  dest_id : Option String
  payload_size : Int
  deriving DecidableEq, Repr

/-- Default-constructed `Metadata` (all fields unset / zero). -/
def Metadata.defaultVal : Metadata := { src_id := none, dest_id := none, payload_size := 0 }

/-- Protobuf accessor `metadata.src_id()`: the empty string when unset. -/
def Metadata.srcId (m : Metadata) : String := m.src_id.getD ""

/-- Protobuf accessor `metadata.dest_id()`: the empty string when unset. -/
def Metadata.destId (m : Metadata) : String := m.dest_id.getD ""

/-- Embeds `nsbm.IntroDetails`, carried only by INIT: the client identifier, its
address, and the locally-bound port of each of its three channels. -/
structure IntroDetails where
  identifier : String
  address : String
  ch_ctrl : Int
  ch_send : Int
  ch_recv : Int
  deriving DecidableEq, Repr

/-- Default-constructed `IntroDetails`. -/
def IntroDetails.defaultVal : IntroDetails :=
  { identifier := "", address := "", ch_ctrl := 0, ch_send := 0, ch_recv := 0 }

/-- Embeds `nsbm.ConfigParams`, sent only in the INIT response by `handle_init`. -/
structure ConfigParams where
  sys_mode : SystemMode
  use_db : Bool
  db_address : String
  db_port : Int
  db_num : Int
  deriving DecidableEq, Repr

/-- Default-constructed `ConfigParams` (proto3 defaults). -/
def ConfigParams.defaultVal : ConfigParams :=
  { sys_mode := .PULL, use_db := false, db_address := "", db_port := 0, db_num := 0 }

/-- The `nsb::nsbm` protobuf message: a manifest plus optional submessages and
the payload carrier pair (`payload` inline bytes / `msg_key` offload key). -/
structure Nsbm where
  manifest : Manifest
  metadata : Option Metadata
  intro : Option IntroDetails
  config : Option ConfigParams
  payload : String
  msg_key : String
  deriving DecidableEq, Repr

/-- A freshly constructed `nsb::nsbm` (the daemon's `nsb_response` template):
submessages absent, strings empty, manifest at its proto3 default (the first
value of each enum). -/
def Nsbm.defaultVal : Nsbm :=
  { manifest := { op := .INIT, og := .APP_CLIENT, code := .SUCCESS }
    metadata := none
    intro := none
    config := none
    payload := ""
    msg_key := "" }

/-- Protobuf accessor `msg.metadata()`: the default submessage when absent. -/
def Nsbm.metadataD (m : Nsbm) : Metadata := m.metadata.getD Metadata.defaultVal

/-- Protobuf accessor `msg.intro()`: the default submessage when absent. -/
def Nsbm.introD (m : Nsbm) : IntroDetails := m.intro.getD IntroDetails.defaultVal

/-- The check `has_metadata() && metadata().has_src_id()` collapsed to one option:
`some sid` exactly when both presence bits are set. -/
def Nsbm.srcIdOpt (m : Nsbm) : Option String :=
  match m.metadata with
  | some md => md.src_id
  | none => none

/-- The check `has_metadata() && metadata().has_dest_id()` collapsed to one option. -/
def Nsbm.destIdOpt (m : Nsbm) : Option String :=
  match m.metadata with
  | some md => md.dest_id
  | none => none

/-- Embeds `NSBDaemon::msg_get_payload_obj`.  Modelled from the spec: the daemon-side
definition lives in the cpp tree's header, which is absent from the sources;
the spec fixes the payload carrier by the offload flag ("Exactly one of:
inline bytes, or an offload store key ... fixed by the daemon's
`use_offload_store` flag"), exactly as the in-source client twin
`NSBClient::msgGetPayloadObj` does: the key when `USE_DB`, else the inline
payload. -/
def msg_get_payload_obj (cfg : Config) (msg : Nsbm) : String :=
  if cfg.USE_DB then msg.msg_key else msg.payload

/-- Embeds `NSBDaemon::msg_set_payload_obj`.  Modelled from the spec: daemon-side
definition absent from the sources; mirrors the in-source client twin
`NSBClient::msgSetPayloadObj`: write the key slot when `USE_DB`, else the
inline payload slot. -/
def msg_set_payload_obj (cfg : Config) (payloadObj : String) (msg : Nsbm) : Nsbm :=
  if cfg.USE_DB then { msg with msg_key := payloadObj } else { msg with payload := payloadObj }

/-- Embeds `MessageEntry` from `nsb.h`: one buffered payload in flight. -/
structure MessageEntry where
  source : String
  destination : String
  payload_obj : String
  payload_size : Int
  deriving DecidableEq, Repr

/-- The blank (default-constructed) `MessageEntry`. -/
def MessageEntry.blank : MessageEntry :=
  { source := "", destination := "", payload_obj := "", payload_size := 0 }

/-- Embeds `MessageEntry::exists()`.  Modelled from the spec: the cpp tree's `nsb.h`
declaring it is absent from the sources.  The spec reports misses as a "nil /
empty `MessageEntry`", and both `handle_fetch` and the older daemon's
`handle_receive` test populatedness as `entry.source != ""`; `exists()` is
that check. -/
def MessageEntry.entryExists (e : MessageEntry) : Bool := e.source != ""

/-- Embeds `NSBDaemon::ClientDetails` (daemon-side registry record). -/
structure ClientDetails where
  identifier : String
  address : String
  ch_CTRL_port : Int
  ch_CTRL_fd : Int
  ch_SEND_port : Int
  ch_SEND_fd : Int
  ch_RECV_port : Int
  ch_RECV_fd : Int
  deriving DecidableEq, Repr

/-- The `fd_lookup.find(addr) != end ? fd_lookup[addr] : -1` idiom of the
`ClientDetails` constructor. -/
def fdLookupGet (fd_lookup : List (String × Int)) (key : String) : Int :=
  match fd_lookup.lookup key with
  | some fd => fd
  | none => -1

/-- The `ClientDetails(nsb::nsbm*, fd_lookup)` constructor: copy the intro
fields and resolve each `address:port` string against the fd table. -/
def ClientDetails.ofMsg (msg : Nsbm) (fd_lookup : List (String × Int)) : ClientDetails :=
  let intro := msg.introD
  { identifier := intro.identifier
    address := intro.address
    ch_CTRL_port := intro.ch_ctrl
    ch_CTRL_fd := fdLookupGet fd_lookup (intro.address ++ ":" ++ toString intro.ch_ctrl)
    ch_SEND_port := intro.ch_send
    ch_SEND_fd := fdLookupGet fd_lookup (intro.address ++ ":" ++ toString intro.ch_send)
    ch_RECV_port := intro.ch_recv
    ch_RECV_fd := fdLookupGet fd_lookup (intro.address ++ ":" ++ toString intro.ch_recv) }

/-- Embeds `std::map::emplace` on a string-keyed registry: inserts only when the key
is not already present (an existing entry is NOT replaced). -/
def mapEmplace (m : List (String × ClientDetails)) (k : String) (v : ClientDetails) :
    List (String × ClientDetails) :=
  if (m.lookup k).isSome then m else m ++ [(k, v)]

/-- The daemon's mutable state: configuration, running flag, the two client
registries, the address-to-fd table, and the two FIFO buffers. -/
structure DaemonState where
  cfg : Config
  running : Bool
  app_client_lookup : List (String × ClientDetails)
  sim_client_lookup : List (String × ClientDetails)
  fd_lookup : List (String × Int)
  tx_buffer : List MessageEntry
  rx_buffer : List MessageEntry
  deriving DecidableEq, Repr

/-- The observable effect of one handler invocation: the successor state, the
response frame written back on the caller's connection (when
`response_required` was set), and the `(fd, frame)` pairs pushed to other
clients' channels. -/
structure HandlerResult where
  state : DaemonState
  response : Option Nsbm
  forwards : List (Int × Nsbm)
  deriving DecidableEq, Repr

/-- A handler outcome that only changes state: no response, no forwards. -/
def silently (st : DaemonState) : HandlerResult :=
  { state := st, response := none, forwards := [] }

/-- Tail of `NSBDaemon::handle_init`: set `response_required`, reply
`{INIT, DAEMON, SUCCESS|FAILURE}` and attach the configuration block
(database parameters only when `USE_DB`). -/
def initResponse (st : DaemonState) (success : Bool) : HandlerResult :=
  let out_config : ConfigParams :=
    { sys_mode := st.cfg.SYSTEM_MODE
      use_db := st.cfg.USE_DB
      db_address := if st.cfg.USE_DB then st.cfg.DB_ADDRESS else ""
      db_port := if st.cfg.USE_DB then st.cfg.DB_PORT else 0
      db_num := if st.cfg.USE_DB then st.cfg.DB_NUM else 0 }
  { state := st
    response := some { Nsbm.defaultVal with
      manifest := { op := .INIT, og := .DAEMON
                    code := if success then .SUCCESS else .FAILURE }
      config := some out_config }
    forwards := [] }

/-- Embeds `NSBDaemon::handle_init`: register the client.  An INIT without
`IntroDetails`, or from an originator other than APP_CLIENT / SIM_CLIENT,
returns early with no response.  APP clients are `emplace`d by identifier;
SIM clients by identifier in PER_NODE mode, and under the sentinel key
`"simulator"` in SYSTEM_WIDE mode unless a simulator is already registered,
in which case the INIT fails. -/
def handle_init (st : DaemonState) (incoming : Nsbm) : HandlerResult :=
  match incoming.intro with
  | none => silently st
  | some intro =>
    let details := ClientDetails.ofMsg incoming st.fd_lookup
    match incoming.manifest.og with
    | .APP_CLIENT =>
        initResponse { st with
          app_client_lookup := mapEmplace st.app_client_lookup intro.identifier details } true
    | .SIM_CLIENT =>
        match st.cfg.SIMULATOR_MODE with
        | .PER_NODE =>
            initResponse { st with
              sim_client_lookup := mapEmplace st.sim_client_lookup intro.identifier details } true
        | .SYSTEM_WIDE =>
            if st.sim_client_lookup.length > 0 then
              initResponse st false
            else
              initResponse { st with
                sim_client_lookup := mapEmplace st.sim_client_lookup "simulator" details } true
    | .DAEMON => silently st

/-- Embeds `NSBDaemon::handle_ping`: always reply `{PING, DAEMON, SUCCESS}`. -/
def handle_ping (st : DaemonState) (_incoming : Nsbm) : HandlerResult :=
  { state := st
    response := some { Nsbm.defaultVal with
      manifest := { op := .PING, og := .DAEMON, code := .SUCCESS } }
    forwards := [] }

/-- The `MessageEntry(in_metadata.src_id(), in_metadata.dest_id(),
payload_obj, in_metadata.payload_size())` built by `handle_send` /
`handle_post` (metadata read without a presence check, so an absent
submessage contributes empty strings and size 0). -/
def entryOfMsg (cfg : Config) (msg : Nsbm) : MessageEntry :=
  { source := msg.metadataD.srcId
    destination := msg.metadataD.destId
    payload_obj := msg_get_payload_obj cfg msg
    payload_size := msg.metadataD.payload_size }

/-- The PUSH-mode frame rewrite: copy the incoming message and replace the
manifest operation with FORWARD. -/
def forwardOf (msg : Nsbm) : Nsbm :=
  { msg with manifest := { msg.manifest with op := .FORWARD } }

/-- Embeds `NSBDaemon::handle_send`.  PULL mode: append the entry to `tx_buffer`,
no response.  PUSH mode: forward the rewritten frame to the target
simulator's RECV fd (SYSTEM_WIDE: the first registered simulator — the C++
dereferences `begin()` of the map, undefined when empty, modelled here as no
forward; PER_NODE: the simulator registered under the message's `src_id`,
where the C++ `at()` throws when absent, modelled here as no forward). -/
def handle_send (st : DaemonState) (incoming : Nsbm) : HandlerResult :=
  match st.cfg.SYSTEM_MODE with
  | .PULL =>
      silently { st with tx_buffer := st.tx_buffer ++ [entryOfMsg st.cfg incoming] }
  | .PUSH =>
      match st.cfg.SIMULATOR_MODE with
      | .SYSTEM_WIDE =>
          match st.sim_client_lookup with
          | [] => silently st
          | (_, target) :: _ =>
              { state := st, response := none
                forwards := [(target.ch_RECV_fd, forwardOf incoming)] }
      | .PER_NODE =>
          match st.sim_client_lookup.lookup incoming.metadataD.srcId with
          | some target =>
              { state := st, response := none
                forwards := [(target.ch_RECV_fd, forwardOf incoming)] }
          | none => silently st

/-- The linear scan of `handle_fetch`: the first `tx_buffer` entry whose
`source` equals the requested id, or the blank entry when none matches. -/
def firstSourceMatch : List MessageEntry → String → MessageEntry
  | [], _ => MessageEntry.blank
  | e :: rest, sid => if e.source = sid then e else firstSourceMatch rest sid

/-- The linear scan of `handle_receive`: the first `rx_buffer` entry whose
`destination` equals the requested id, or the blank entry. -/
def firstDestMatch : List MessageEntry → String → MessageEntry
  | [], _ => MessageEntry.blank
  | e :: rest, d => if e.destination = d then e else firstDestMatch rest d

/-- The `{FETCH|RECEIVE, DAEMON, MESSAGE}` response frame built from a found
entry: metadata copied from the entry and the payload carrier set through
`msg_set_payload_obj`. -/
def entryResponse (cfg : Config) (op : Operation) (e : MessageEntry) : Nsbm :=
  msg_set_payload_obj cfg e.payload_obj
    { Nsbm.defaultVal with
      manifest := { op := op, og := .DAEMON, code := .MESSAGE }
      metadata := some { src_id := some e.source, dest_id := some e.destination
                         payload_size := e.payload_size } }

/-- Embeds `NSBDaemon::handle_fetch`.  When the request carries metadata with a
`src_id`, the buffer is scanned for the first matching source and the found
entry is only COPIED (`tx_buffer` is left as it was).  Otherwise the head of
`tx_buffer` is popped, if any.  The response is `{FETCH, DAEMON, MESSAGE}`
with the entry when `fetched_message.source != ""`, else
`{FETCH, DAEMON, NO_MESSAGE}`. -/
def handle_fetch (st : DaemonState) (incoming : Nsbm) : HandlerResult :=
  let scanned : Option MessageEntry :=
    match incoming.srcIdOpt with
    | some sid => some (firstSourceMatch st.tx_buffer sid)
    | none => none
  let popped : MessageEntry × List MessageEntry :=
    match scanned with
    | some e => (e, st.tx_buffer)
    | none =>
      match st.tx_buffer with
      | [] => (MessageEntry.blank, [])
      | e :: rest => (e, rest)
  let response : Nsbm :=
    if popped.1.source = "" then
      { Nsbm.defaultVal with manifest := { op := .FETCH, og := .DAEMON, code := .NO_MESSAGE } }
    else
      entryResponse st.cfg .FETCH popped.1
  { state := { st with tx_buffer := popped.2 }, response := some response, forwards := [] }

/-- Embeds `NSBDaemon::handle_post`.  PULL mode: only a manifest code of MESSAGE
appends an entry to `rx_buffer` (any other code changes nothing).  PUSH mode:
the frame is rewritten to FORWARD and written to
`app_client_lookup[dest_id].ch_RECV_fd` whenever that fd resolves (no code
check in this branch). -/
def handle_post (st : DaemonState) (incoming : Nsbm) : HandlerResult :=
  match st.cfg.SYSTEM_MODE with
  | .PULL =>
      if incoming.manifest.code = .MESSAGE then
        silently { st with rx_buffer := st.rx_buffer ++ [entryOfMsg st.cfg incoming] }
      else
        silently st
  | .PUSH =>
      match st.app_client_lookup.lookup incoming.metadataD.destId with
      | some target =>
          if target.ch_RECV_fd ≠ -1 then
            { state := st, response := none
              forwards := [(target.ch_RECV_fd, forwardOf incoming)] }
          else
            silently st
      | none => silently st

/-- Embeds `NSBDaemon::handle_receive`.  When the request carries metadata with a
`dest_id`, `rx_buffer` is scanned for the first matching destination; the
found entry is only COPIED (`rx_buffer` is never modified by this handler).
Without a `dest_id` the entry stays blank.  The response is
`{RECEIVE, DAEMON, MESSAGE}` with the entry when it exists, else
`{RECEIVE, DAEMON, NO_MESSAGE}`. -/
def handle_receive (st : DaemonState) (incoming : Nsbm) : HandlerResult :=
  let received_message : MessageEntry :=
    match incoming.destIdOpt with
    | some d => firstDestMatch st.rx_buffer d
    | none => MessageEntry.blank
  let response : Nsbm :=
    if received_message.entryExists then
      entryResponse st.cfg .RECEIVE received_message
    else
      { Nsbm.defaultVal with manifest := { op := .RECEIVE, og := .DAEMON, code := .NO_MESSAGE } }
  { state := st, response := some response, forwards := [] }

/-- Embeds `NSBDaemon::handle_message`: dispatch on the manifest operation.  EXIT
stops the daemon; a FORWARD (not in the switch) hits the default case and is
answered with a negative PING. -/
def handle_message (st : DaemonState) (incoming : Nsbm) : HandlerResult :=
  match incoming.manifest.op with
  | .INIT => handle_init st incoming
  | .PING => handle_ping st incoming
  | .SEND => handle_send st incoming
  | .FETCH => handle_fetch st incoming
  | .POST => handle_post st incoming
  | .RECEIVE => handle_receive st incoming
  | .EXIT => silently { st with running := false }
  | .FORWARD =>
      { state := st
        response := some { Nsbm.defaultVal with
          manifest := { op := .PING, og := .DAEMON, code := .FAILURE } }
        forwards := [] }

/-- Fold a sequence of incoming frames through the dispatcher, keeping only
the daemon state (the daemon's single-threaded loop gives this total order). -/
def runMessages (st : DaemonState) (msgs : List Nsbm) : DaemonState :=
  msgs.foldl (fun s m => (handle_message s m).state) st

/-- Daemon state at startup under a given configuration: not yet serving any
client, both buffers empty. -/
def initState (cfg : Config) : DaemonState :=
  { cfg := cfg, running := true, app_client_lookup := [], sim_client_lookup := []
    fd_lookup := [], tx_buffer := [], rx_buffer := [] }

/-- A PULL / SYSTEM_WIDE / no-database configuration (the spec's default). -/
def pullConfig : Config :=
  { SYSTEM_MODE := .PULL, SIMULATOR_MODE := .SYSTEM_WIDE, USE_DB := false
    DB_ADDRESS := "", DB_PORT := 0, DB_NUM := 0 }

/-- A PUSH / SYSTEM_WIDE / no-database configuration. -/
def pushConfig : Config :=
  { SYSTEM_MODE := .PUSH, SIMULATOR_MODE := .SYSTEM_WIDE, USE_DB := false
    DB_ADDRESS := "", DB_PORT := 0, DB_NUM := 0 }

/-- The SEND frame built by `NSBAppClient::send`: `{SEND, APP_CLIENT,
MESSAGE}`, metadata `{src_id := clientId, dest_id := destId, payload_size}`,
and the payload carrier chosen by the offload flag (`dbKey` abstracts the key
returned by `db->store(payload)`). -/
def appSendFrame (clientId destId payload : String) (useDb : Bool) (dbKey : String) : Nsbm :=
  { Nsbm.defaultVal with
    manifest := { op := .SEND, og := .APP_CLIENT, code := .MESSAGE }
    metadata := some { src_id := some clientId, dest_id := some destId
                       payload_size := (payload.length : Int) }
    payload := if useDb then "" else payload
    msg_key := if useDb then dbKey else "" }

/-- The RECEIVE request built by `NSBAppClient::receive` in PULL mode:
`{RECEIVE, APP_CLIENT, SUCCESS}` with `dest_id` set to the given destination,
defaulting to the client's own identifier when the caller passes null. -/
def appReceiveRequest (clientId : String) (destId : Option String) : Nsbm :=
  { Nsbm.defaultVal with
    manifest := { op := .RECEIVE, og := .APP_CLIENT, code := .SUCCESS }
    metadata := some { src_id := none, dest_id := some (destId.getD clientId)
                       payload_size := 0 } }

/-- The FETCH request built by `NSBSimClient::fetch` in PULL mode.  In
SYSTEM_WIDE simulator mode the metadata carries the requested source id when
one was passed and is absent otherwise; in PER_NODE mode the client always
overrides the source with its own identifier. -/
def simFetchRequest (clientId : String) (srcId : Option String) (simMode : SimulatorMode) : Nsbm :=
  match simMode with
  | .SYSTEM_WIDE =>
      { Nsbm.defaultVal with
        manifest := { op := .FETCH, og := .SIM_CLIENT, code := .SUCCESS }
        metadata := match srcId with
          | some s => some { src_id := some s, dest_id := none, payload_size := 0 }
          | none => none }
  | .PER_NODE =>
      { Nsbm.defaultVal with
        manifest := { op := .FETCH, og := .SIM_CLIENT, code := .SUCCESS }
        metadata := some { src_id := some clientId, dest_id := none, payload_size := 0 } }

/-- The POST frame built by `NSBSimClient::post(srcId, destId, payload)`:
`{POST, SIM_CLIENT, MESSAGE}` with metadata `src_id` set to the client's OWN
identifier (`clientId`) — the `srcId` argument is never read — and the
payload carrier chosen by the offload flag (`dbKey` abstracts the key
returned by `db->store(payload)`). -/
def simPostFrame (clientId : String) (srcId : String) (destId : String) (payload : String)
    (useDb : Bool) (dbKey : String) : Nsbm :=
  { Nsbm.defaultVal with
    manifest := { op := .POST, og := .SIM_CLIENT, code := .MESSAGE }
    metadata := some { src_id := some clientId, dest_id := some destId
                       payload_size := (payload.length : Int) }
    payload := if useDb then "" else payload
    msg_key := if useDb then dbKey else "" }

/-! ## Concrete scenario values used by the theorems below -/

/-- SEND from app `A` of `"pa1"` to `n2` (inline payloads, no offload). -/
def c1_sendA1 : Nsbm := appSendFrame "A" "n2" "pa1" false ""

/-- Second SEND from app `A`. -/
def c1_sendA2 : Nsbm := appSendFrame "A" "n2" "pa2" false ""

/-- SEND from app `B`. -/
def c1_sendB : Nsbm := appSendFrame "B" "n2" "pb" false ""

/-- Daemon state in PULL mode after the SEND burst `A, A, B`. -/
def c1_state : DaemonState :=
  runMessages (initState pullConfig) [c1_sendA1, c1_sendA2, c1_sendB]

/-- The source-filtered FETCH request `fetch(src_id = "B")`. -/
def c1_fetchB : Nsbm := simFetchRequest "sim" (some "B") .SYSTEM_WIDE

/-- The `tx_buffer` entry created for `B`'s SEND. -/
def c1_entryB : MessageEntry :=
  { source := "B", destination := "n2", payload_obj := "pb", payload_size := 2 }

/-- The POST `{src = n1, dest = n2, payload = "hi"}` delivered by a simulator. -/
def c2_post : Nsbm :=
  { Nsbm.defaultVal with
    manifest := { op := .POST, og := .SIM_CLIENT, code := .MESSAGE }
    metadata := some { src_id := some "n1", dest_id := some "n2", payload_size := 2 }
    payload := "hi" }

/-- Daemon state in PULL mode after that POST. -/
def c2_state : DaemonState := runMessages (initState pullConfig) [c2_post]

/-- The RECEIVE request issued by app client `n2` with no explicit
destination (the client defaults `dest_id` to its own identifier). -/
def c2_req : Nsbm := appReceiveRequest "n2" none

/-- The `rx_buffer` entry created for the POST. -/
def c2_entry : MessageEntry :=
  { source := "n1", destination := "n2", payload_obj := "hi", payload_size := 2 }

/-- A registered simulator's details (SYSTEM_WIDE sentinel entry). -/
def c5_details : ClientDetails :=
  { identifier := "s1", address := "10.0.0.1", ch_CTRL_port := 1, ch_CTRL_fd := 11
    ch_SEND_port := 2, ch_SEND_fd := 12, ch_RECV_port := 3, ch_RECV_fd := 13 }

/-- A SYSTEM_WIDE daemon state that already holds its one simulator. -/
def c5_state : DaemonState :=
  { cfg := pullConfig, running := true, app_client_lookup := []
    sim_client_lookup := [("simulator", c5_details)], fd_lookup := []
    tx_buffer := [], rx_buffer := [] }

/-- A SIM INIT frame that carries no IntroDetails. -/
def c5_introless_init : Nsbm :=
  { Nsbm.defaultVal with manifest := { op := .INIT, og := .SIM_CLIENT, code := .SUCCESS } }

/-- First APP INIT registering identifier `n1` from address `10.0.0.1`. -/
def c6_init1 : Nsbm :=
  { Nsbm.defaultVal with
    manifest := { op := .INIT, og := .APP_CLIENT, code := .SUCCESS }
    intro := some { identifier := "n1", address := "10.0.0.1", ch_ctrl := 1, ch_send := 2, ch_recv := 3 } }

/-- Second APP INIT reusing identifier `n1` from a different address. -/
def c6_init2 : Nsbm :=
  { Nsbm.defaultVal with
    manifest := { op := .INIT, og := .APP_CLIENT, code := .SUCCESS }
    intro := some { identifier := "n1", address := "10.0.0.2", ch_ctrl := 4, ch_send := 5, ch_recv := 6 } }

/-- Daemon state after both INITs. -/
def c6_state : DaemonState := runMessages (initState pullConfig) [c6_init1, c6_init2]

/-- A SEND whose metadata `src_id` is present but equal to the empty string. -/
def c7_send_empty_src : Nsbm :=
  { Nsbm.defaultVal with
    manifest := { op := .SEND, og := .APP_CLIENT, code := .MESSAGE }
    metadata := some { src_id := some "", dest_id := some "n2", payload_size := 1 }
    payload := "x" }

/-- An INIT frame naming the originator DAEMON (neither APP nor SIM). -/
def c8_unknown_og_init : Nsbm :=
  { Nsbm.defaultVal with
    manifest := { op := .INIT, og := .DAEMON, code := .SUCCESS }
    intro := some { identifier := "x", address := "10.0.0.1", ch_ctrl := 1, ch_send := 2, ch_recv := 3 } }

/-- An APP INIT frame carrying no IntroDetails. -/
def c8_no_intro_init : Nsbm :=
  { Nsbm.defaultVal with manifest := { op := .INIT, og := .APP_CLIENT, code := .SUCCESS } }

/-- A registered app client `b` whose RECV channel is fd 7. -/
def c9_app_details : ClientDetails :=
  { identifier := "b", address := "10.0.0.1", ch_CTRL_port := 1, ch_CTRL_fd := 11
    ch_SEND_port := 2, ch_SEND_fd := 12, ch_RECV_port := 3, ch_RECV_fd := 7 }

/-- A PUSH-mode daemon state with app `b` registered. -/
def c9_state : DaemonState :=
  { cfg := pushConfig, running := true, app_client_lookup := [("b", c9_app_details)]
    sim_client_lookup := [], fd_lookup := [], tx_buffer := [], rx_buffer := [] }

/-- A POST whose manifest code is NO_MESSAGE (a simulated drop), addressed
to the registered app `b`. -/
def c9_no_message_post : Nsbm :=
  { Nsbm.defaultVal with
    manifest := { op := .POST, og := .SIM_CLIENT, code := .NO_MESSAGE }
    metadata := some { src_id := some "s", dest_id := some "b", payload_size := 1 }
    payload := "x" }

/-! ## Claim theorems -/

/-- C1: in PULL mode, after SENDs from sources `A, A, B`, a FETCH carrying
`src_id = B` replies `{FETCH, DAEMON, MESSAGE}` with the B entry's source,
destination, payload carrier and size — but, contrary to the claim and the
spec ("if found, remove it"), the handler only copies the scanned entry:
`tx_buffer` is unchanged, the B entry is still buffered, and an identical
FETCH returns the very same entry a second time. -/
theorem fetch_by_src_id_leaves_entry_in_tx_buffer :
    (handle_fetch c1_state c1_fetchB).response
        = some (entryResponse pullConfig .FETCH c1_entryB) ∧
    (handle_fetch c1_state c1_fetchB).state.tx_buffer = c1_state.tx_buffer ∧
    c1_state.tx_buffer =
      [{ source := "A", destination := "n2", payload_obj := "pa1", payload_size := 3 },
       { source := "A", destination := "n2", payload_obj := "pa2", payload_size := 3 },
       c1_entryB] ∧
    (handle_fetch (handle_fetch c1_state c1_fetchB).state c1_fetchB).response
        = some (entryResponse pullConfig .FETCH c1_entryB) := by
  refine ⟨rfl, rfl, rfl, rfl⟩

/-- C2: in PULL mode, an app's RECEIVE (whose `dest_id` the client defaults
to its own identifier) is answered `{RECEIVE, DAEMON, MESSAGE}` with the
first matching `rx_buffer` entry's metadata and payload carrier — but,
contrary to the claim and the spec ("If found, remove it"), `handle_receive`
never modifies `rx_buffer`: the entry stays buffered and an identical
RECEIVE returns the very same entry a second time. -/
theorem receive_leaves_entry_in_rx_buffer :
    (handle_receive c2_state c2_req).response
        = some (entryResponse pullConfig .RECEIVE c2_entry) ∧
    (handle_receive c2_state c2_req).state = c2_state ∧
    c2_state.rx_buffer = [c2_entry] ∧
    (handle_receive (handle_receive c2_state c2_req).state c2_req).response
        = some (entryResponse pullConfig .RECEIVE c2_entry) := by
  refine ⟨rfl, rfl, rfl, rfl⟩

/-- C5 counterexample: with the sole SYSTEM_WIDE simulator already
registered, a SIM-originated INIT that carries no IntroDetails is handled
while `sim_client_lookup` is non-empty, yet the daemon sends back NO reply
at all (the claim asserts every such INIT is answered with
`{INIT, DAEMON, FAILURE}`). -/
theorem system_wide_introless_sim_init_gets_no_reply :
    c5_state.cfg.SIMULATOR_MODE = .SYSTEM_WIDE ∧
    c5_state.sim_client_lookup ≠ [] ∧
    c5_introless_init.manifest.op = .INIT ∧
    c5_introless_init.manifest.og = .SIM_CLIENT ∧
    (handle_message c5_state c5_introless_init).response = none ∧
    (handle_message c5_state c5_introless_init).state = c5_state := by
  refine ⟨rfl, by decide, rfl, rfl, rfl, rfl⟩

/-- C6 counterexample: two APP INITs with the same identifier `n1`; after
the second, `app_client_lookup` still maps `n1` to the ClientDetails built
from the FIRST INIT (`std::map::emplace` does not overwrite), and those
details differ from the ones the second INIT would have installed. -/
theorem duplicate_app_init_keeps_old_details :
    c6_state.app_client_lookup.lookup "n1" = some (ClientDetails.ofMsg c6_init1 []) ∧
    ClientDetails.ofMsg c6_init1 [] ≠ ClientDetails.ofMsg c6_init2 [] := by
  refine ⟨rfl, by decide⟩

/-- C7 counterexample: a single PULL-mode SEND whose metadata `src_id` is
the empty string reaches a daemon state whose `tx_buffer` holds an entry
with an EMPTY source — the claimed invariant fails. -/
theorem send_with_empty_src_id_buffers_empty_source :
    (runMessages (initState pullConfig) [c7_send_empty_src]).tx_buffer
      = [{ source := "", destination := "n2", payload_obj := "x", payload_size := 1 }] := by
  rfl

/-- C8 counterexample: an INIT naming originator DAEMON (neither APP nor
SIM), and an INIT without IntroDetails, are both dropped with NO reply of
any kind (the claim asserts an `{INIT, ..., FAILURE}` reply is sent back). -/
theorem invalid_init_sends_no_failure_reply :
    (handle_message (initState pullConfig) c8_unknown_og_init).response = none ∧
    (handle_message (initState pullConfig) c8_no_intro_init).response = none := by
  refine ⟨rfl, rfl⟩

/-- C9 counterexample: in PUSH mode `handle_post` never looks at the
manifest code, so a POST with code NO_MESSAGE addressed to a registered app
is still rewritten to FORWARD and written to that app's RECV fd — a FORWARD
frame IS emitted, contrary to the claim. -/
theorem push_no_message_post_emits_forward :
    c9_no_message_post.manifest.op = .POST ∧
    c9_no_message_post.manifest.code = .NO_MESSAGE ∧
    (handle_message c9_state c9_no_message_post).forwards
      = [(7, forwardOf c9_no_message_post)] ∧
    (forwardOf c9_no_message_post).manifest.op = .FORWARD := by
  refine ⟨rfl, rfl, rfl, rfl⟩

/-- When no buffered entry's source matches, the linear scan of
`handle_fetch` yields the blank entry. -/
theorem firstSourceMatch_eq_blank {l : List MessageEntry} {sid : String}
    (h : ∀ e ∈ l, e.source ≠ sid) : firstSourceMatch l sid = MessageEntry.blank := by
  induction l with
  | nil => rfl
  | cons e rest ih =>
    have he : ¬ e.source = sid := h e (List.mem_cons_self e rest)
    simp only [firstSourceMatch, if_neg he]
    exact ih fun x hx => h x (List.mem_cons_of_mem e hx)

/-- When no buffered entry's destination matches, the linear scan of
`handle_receive` yields the blank entry. -/
theorem firstDestMatch_eq_blank {l : List MessageEntry} {d : String}
    (h : ∀ e ∈ l, e.destination ≠ d) : firstDestMatch l d = MessageEntry.blank := by
  induction l with
  | nil => rfl
  | cons e rest ih =>
    have he : ¬ e.destination = d := h e (List.mem_cons_self e rest)
    simp only [firstDestMatch, if_neg he]
    exact ih fun x hx => h x (List.mem_cons_of_mem e hx)

/-- C4: in PULL mode, a FETCH whose requested source matches nothing (or,
unfiltered, finds an empty `tx_buffer`) and a RECEIVE whose requested
destination matches nothing (or arrives with an empty `rx_buffer`) are each
answered by a DAEMON-originated NO_MESSAGE reply, and the daemon state —
both buffers included — is exactly as it was before the request. -/
theorem buffer_miss_no_message_state_unchanged :
    (∀ (st : DaemonState) (m : Nsbm),
      st.cfg.SYSTEM_MODE = .PULL → m.manifest.op = .FETCH →
      ((∃ sid, m.srcIdOpt = some sid ∧ ∀ e ∈ st.tx_buffer, e.source ≠ sid) ∨
        (m.srcIdOpt = none ∧ st.tx_buffer = [])) →
      (handle_message st m).state = st ∧
      ∃ r, (handle_message st m).response = some r ∧
        r.manifest.og = .DAEMON ∧ r.manifest.code = .NO_MESSAGE) ∧
    (∀ (st : DaemonState) (m : Nsbm),
      st.cfg.SYSTEM_MODE = .PULL → m.manifest.op = .RECEIVE →
      ((∃ d, m.destIdOpt = some d ∧ ∀ e ∈ st.rx_buffer, e.destination ≠ d) ∨
        (m.destIdOpt = none ∧ st.rx_buffer = [])) →
      (handle_message st m).state = st ∧
      ∃ r, (handle_message st m).response = some r ∧
        r.manifest.og = .DAEMON ∧ r.manifest.code = .NO_MESSAGE) := by
  constructor
  · intro st m _ hop hmiss
    have hm : handle_message st m = handle_fetch st m := by
      simp only [handle_message, hop]
    rw [hm]
    rcases hmiss with ⟨sid, hsid, hnone⟩ | ⟨hsid, hempty⟩
    · simp only [handle_fetch, hsid, firstSourceMatch_eq_blank hnone, MessageEntry.blank]
      exact ⟨trivial, ⟨_, rfl, rfl, rfl⟩⟩
    · simp only [handle_fetch, hsid, hempty, MessageEntry.blank]
      refine ⟨?_, ⟨_, rfl, rfl, rfl⟩⟩
      rw [← hempty]
  · intro st m _ hop hmiss
    have hm : handle_message st m = handle_receive st m := by
      simp only [handle_message, hop]
    rw [hm]
    rcases hmiss with ⟨d, hd, hnone⟩ | ⟨hd, _⟩
    · simp only [handle_receive, hd, firstDestMatch_eq_blank hnone, MessageEntry.blank,
        MessageEntry.entryExists]
      exact ⟨trivial, ⟨_, rfl, rfl, rfl⟩⟩
    · simp only [handle_receive, hd, MessageEntry.blank, MessageEntry.entryExists]
      exact ⟨trivial, ⟨_, rfl, rfl, rfl⟩⟩

/-- Source-filtered FETCH request for a source that never sent. -/
def c4_fetchZ : Nsbm := simFetchRequest "sim" (some "Z") .SYSTEM_WIDE

/-- RECEIVE request for a destination nothing was posted to. -/
def c4_recvN9 : Nsbm := appReceiveRequest "n9" none

/-- Witness for C4: a FETCH for the unsent source `Z` against the `A, A, B`
buffer, and a RECEIVE for the unposted destination `n9`, each leaves the
daemon state untouched and draws a DAEMON / NO_MESSAGE reply. -/
theorem buffer_miss_no_message_state_unchanged_witness :
    ((handle_message c1_state c4_fetchZ).state = c1_state ∧
      ∃ r, (handle_message c1_state c4_fetchZ).response = some r ∧
        r.manifest.og = .DAEMON ∧ r.manifest.code = .NO_MESSAGE) ∧
    ((handle_message c2_state c4_recvN9).state = c2_state ∧
      ∃ r, (handle_message c2_state c4_recvN9).response = some r ∧
        r.manifest.og = .DAEMON ∧ r.manifest.code = .NO_MESSAGE) :=
  ⟨buffer_miss_no_message_state_unchanged.1 c1_state c4_fetchZ rfl rfl
      (Or.inl ⟨"Z", rfl, by decide⟩),
    buffer_miss_no_message_state_unchanged.2 c2_state c4_recvN9 rfl rfl
      (Or.inl ⟨"n9", rfl, by decide⟩)⟩

/-- The metadata-less unfiltered FETCH frame a SYSTEM_WIDE simulator client
sends when the caller passes no source id. -/
def fetchNoneFrame : Nsbm := simFetchRequest "sim" none .SYSTEM_WIDE

/-- Issue `n` successive unfiltered FETCHes, collecting each response. -/
def runFetchesNone : DaemonState → Nat → List (Option Nsbm) × DaemonState
  | st, 0 => ([], st)
  | st, n + 1 =>
    let r := handle_message st fetchNoneFrame
    let rest := runFetchesNone r.state n
    (r.response :: rest.1, rest.2)

/-- Running a list of PULL-mode SEND frames appends their entries to
`tx_buffer`, in arrival order, and changes nothing else. -/
theorem runMessages_sends (ms : List Nsbm) :
    ∀ st : DaemonState, st.cfg.SYSTEM_MODE = .PULL →
      (∀ m ∈ ms, m.manifest.op = .SEND) →
      runMessages st ms = { st with tx_buffer := st.tx_buffer ++ ms.map (entryOfMsg st.cfg) } := by
  induction ms with
  | nil => intro st _ _; simp [runMessages]
  | cons m rest ih =>
    intro st hmode hops
    have hop : m.manifest.op = .SEND := hops m (List.mem_cons_self m rest)
    have h1 : (handle_message st m).state
        = { st with tx_buffer := st.tx_buffer ++ [entryOfMsg st.cfg m] } := by
      simp [handle_message, hop, handle_send, hmode, silently]
    show runMessages (handle_message st m).state rest = _
    rw [h1, ih { st with tx_buffer := st.tx_buffer ++ [entryOfMsg st.cfg m] } hmode
      fun x hx => hops x (List.mem_cons_of_mem m hx)]
    simp

/-- Each unfiltered FETCH pops the buffer head and answers with it; `n`
successive unfiltered FETCHes against a buffer of `n` entries with non-empty
sources return exactly those entries, in buffer order, and drain it. -/
theorem runFetchesNone_drains (l : List MessageEntry) :
    ∀ st : DaemonState, st.tx_buffer = l → (∀ e ∈ l, e.source ≠ "") →
      runFetchesNone st l.length
        = (l.map fun e => some (entryResponse st.cfg .FETCH e),
           { st with tx_buffer := [] }) := by
  induction l with
  | nil =>
    intro st hbuf _
    have h : ({ st with tx_buffer := [] } : DaemonState) = st := by rw [← hbuf]
    simp [runFetchesNone, h]
  | cons e rest ih =>
    intro st hbuf hsrc
    have he : ¬ e.source = "" := hsrc e (List.mem_cons_self e rest)
    have hstep : handle_message st fetchNoneFrame
        = { state := { st with tx_buffer := rest }
            response := some (entryResponse st.cfg .FETCH e)
            forwards := [] } := by
      simp [handle_message, fetchNoneFrame, simFetchRequest, handle_fetch, Nsbm.srcIdOpt,
        Nsbm.defaultVal, hbuf, he]
    have hrest := ih { st with tx_buffer := rest } rfl
      fun x hx => hsrc x (List.mem_cons_of_mem e hx)
    show (let r := handle_message st fetchNoneFrame
          let rst := runFetchesNone r.state rest.length
          (r.response :: rst.1, rst.2)) = _
    rw [hstep]
    simp only [hrest, List.map_cons]

/-- C3: in PULL mode, after any sequence of SEND frames (with non-empty
source ids, as all client-built SENDs have), the i-th of the successive
unfiltered FETCHes is answered with exactly the entry of the i-th SEND —
FETCH-return order equals SEND-arrival order — and the last one empties
`tx_buffer`. -/
theorem tx_buffer_fifo_order (cfg : Config) (ms : List Nsbm)
    (hmode : cfg.SYSTEM_MODE = .PULL)
    (hops : ∀ m ∈ ms, m.manifest.op = .SEND)
    (hsrc : ∀ m ∈ ms, m.metadataD.srcId ≠ "") :
    (runFetchesNone (runMessages (initState cfg) ms) ms.length).1
      = ms.map (fun m => some (entryResponse cfg .FETCH (entryOfMsg cfg m))) ∧
    (runFetchesNone (runMessages (initState cfg) ms) ms.length).2.tx_buffer = [] := by
  have hrun : runMessages (initState cfg) ms
      = { initState cfg with tx_buffer := ms.map (entryOfMsg cfg) } := by
    simpa using runMessages_sends ms (initState cfg) hmode hops
  have hdrain := runFetchesNone_drains (ms.map (entryOfMsg cfg))
    (runMessages (initState cfg) ms) (by rw [hrun])
    (by
      intro e he
      obtain ⟨m, hm, rfl⟩ := List.mem_map.mp he
      exact hsrc m hm)
  have hlen : ms.length = (ms.map (entryOfMsg cfg)).length := by simp
  have hcfg : (runMessages (initState cfg) ms).cfg = cfg := by rw [hrun]; rfl
  rw [hlen, hdrain, hcfg]
  simp [List.map_map, Function.comp]

/-- The SEND burst used to witness C3. -/
def c3_msgs : List Nsbm :=
  [appSendFrame "A" "n2" "x" false "", appSendFrame "B" "n2" "yz" false ""]

/-- Witness for C3: two concrete SENDs from `A` then `B`; the two unfiltered
FETCHes answer with `A`'s entry then `B`'s, and the buffer is drained. -/
theorem tx_buffer_fifo_order_witness :
    (runFetchesNone (runMessages (initState pullConfig) c3_msgs) c3_msgs.length).1
      = c3_msgs.map (fun m => some (entryResponse pullConfig .FETCH (entryOfMsg pullConfig m))) ∧
    (runFetchesNone (runMessages (initState pullConfig) c3_msgs) c3_msgs.length).2.tx_buffer
      = [] :=
  tx_buffer_fifo_order pullConfig c3_msgs rfl (by decide) (by decide)

/-- No handler ever changes the daemon's configuration. -/
theorem handle_message_cfg (st : DaemonState) (m : Nsbm) :
    (handle_message st m).state.cfg = st.cfg := by
  unfold handle_message handle_init handle_ping handle_send handle_fetch handle_post
    handle_receive initResponse silently
  repeat' split
  all_goals rfl

/-- The handler `handle_send` never touches `sim_client_lookup`. -/
theorem handle_send_sim (st : DaemonState) (m : Nsbm) :
    (handle_send st m).state.sim_client_lookup = st.sim_client_lookup := by
  unfold handle_send silently
  repeat' split
  all_goals rfl

/-- The handler `handle_post` never touches `sim_client_lookup`. -/
theorem handle_post_sim (st : DaemonState) (m : Nsbm) :
    (handle_post st m).state.sim_client_lookup = st.sim_client_lookup := by
  unfold handle_post silently
  repeat' split
  all_goals rfl

/-- In SYSTEM_WIDE simulator mode, `handle_init` leaves `sim_client_lookup`
alone, or registers the sentinel entry into a previously-empty lookup. -/
theorem handle_init_sim (st : DaemonState) (m : Nsbm)
    (hw : st.cfg.SIMULATOR_MODE = .SYSTEM_WIDE) :
    (handle_init st m).state.sim_client_lookup = st.sim_client_lookup ∨
    (st.sim_client_lookup = [] ∧
      (handle_init st m).state.sim_client_lookup
        = [("simulator", ClientDetails.ofMsg m st.fd_lookup)]) := by
  cases hi : m.intro with
  | none => exact Or.inl (by simp [handle_init, hi, silently])
  | some i =>
    cases hog : m.manifest.og with
    | APP_CLIENT => exact Or.inl (by simp [handle_init, hi, hog, initResponse])
    | DAEMON => exact Or.inl (by simp [handle_init, hi, hog, silently])
    | SIM_CLIENT =>
      by_cases hlen : st.sim_client_lookup.length > 0
      · exact Or.inl (by simp [handle_init, hi, hog, hw, hlen, initResponse])
      · have hnil : st.sim_client_lookup = [] := List.length_eq_zero.mp (by omega)
        refine Or.inr ⟨hnil, ?_⟩
        simp [handle_init, hi, hog, hw, hlen, initResponse, mapEmplace, hnil]

/-- One dispatcher step never grows `sim_client_lookup` beyond one entry in
SYSTEM_WIDE simulator mode: the only writer is the SIM branch of
`handle_init`, which registers the sentinel entry only into an empty
lookup. -/
theorem handle_message_sim_length (st : DaemonState) (m : Nsbm)
    (hw : st.cfg.SIMULATOR_MODE = .SYSTEM_WIDE) :
    (handle_message st m).state.sim_client_lookup.length
      ≤ max st.sim_client_lookup.length 1 := by
  cases hop : m.manifest.op
  case INIT =>
    have hi : handle_message st m = handle_init st m := by
      simp only [handle_message, hop]
    rw [hi]
    rcases handle_init_sim st m hw with h | ⟨hnil, h⟩
    · rw [h]; exact le_max_left _ _
    · rw [h, hnil]; exact le_max_right _ _
  case SEND =>
    have hi : handle_message st m = handle_send st m := by
      simp only [handle_message, hop]
    rw [hi, handle_send_sim]
    exact le_max_left _ _
  case POST =>
    have hi : handle_message st m = handle_post st m := by
      simp only [handle_message, hop]
    rw [hi, handle_post_sim]
    exact le_max_left _ _
  all_goals
    simp only [handle_message, hop, handle_ping, handle_fetch, handle_receive, silently]
  all_goals exact le_max_left _ _

/-- Along any run of handled messages in SYSTEM_WIDE simulator mode,
`sim_client_lookup` keeps at most one entry. -/
theorem runMessages_sim_length (msgs : List Nsbm) :
    ∀ st : DaemonState, st.cfg.SIMULATOR_MODE = .SYSTEM_WIDE →
      st.sim_client_lookup.length ≤ 1 →
      (runMessages st msgs).sim_client_lookup.length ≤ 1 := by
  induction msgs with
  | nil => intro st _ h; exact h
  | cons m rest ih =>
    intro st hw h
    show (runMessages (handle_message st m).state rest).sim_client_lookup.length ≤ 1
    apply ih
    · rw [handle_message_cfg]; exact hw
    · have := handle_message_sim_length st m hw
      omega

/-- C5 (amended): in SYSTEM_WIDE simulator mode (a) `sim_client_lookup`
holds at most one entry in every reachable daemon state; (b) a SIM INIT
carrying IntroDetails handled while the lookup is empty registers the sole
entry under the sentinel key `"simulator"` and is answered
`{INIT, DAEMON, SUCCESS}`; and (c) a SIM INIT carrying IntroDetails handled
while the lookup is non-empty leaves the whole state unchanged and is
answered `{INIT, DAEMON, FAILURE}`.  (A SIM INIT without IntroDetails also
leaves the lookup unchanged but — unlike the original claim — draws no
reply at all.) -/
theorem system_wide_single_simulator :
    (∀ (st : DaemonState) (msgs : List Nsbm),
      st.cfg.SIMULATOR_MODE = .SYSTEM_WIDE → st.sim_client_lookup.length ≤ 1 →
      (runMessages st msgs).sim_client_lookup.length ≤ 1) ∧
    (∀ (st : DaemonState) (m : Nsbm) (i : IntroDetails),
      st.cfg.SIMULATOR_MODE = .SYSTEM_WIDE → st.sim_client_lookup = [] →
      m.manifest.op = .INIT → m.manifest.og = .SIM_CLIENT → m.intro = some i →
      (handle_message st m).state.sim_client_lookup
          = [("simulator", ClientDetails.ofMsg m st.fd_lookup)] ∧
      ∃ r, (handle_message st m).response = some r ∧
        r.manifest = { op := .INIT, og := .DAEMON, code := .SUCCESS }) ∧
    (∀ (st : DaemonState) (m : Nsbm) (i : IntroDetails),
      st.cfg.SIMULATOR_MODE = .SYSTEM_WIDE → st.sim_client_lookup ≠ [] →
      m.manifest.op = .INIT → m.manifest.og = .SIM_CLIENT → m.intro = some i →
      (handle_message st m).state = st ∧
      ∃ r, (handle_message st m).response = some r ∧
        r.manifest = { op := .INIT, og := .DAEMON, code := .FAILURE }) := by
  refine ⟨fun st msgs hw h => runMessages_sim_length msgs st hw h, ?_, ?_⟩
  · intro st m i hw hempty hop hog hintro
    simp [handle_message, hop, handle_init, hintro, hog, hw, hempty, mapEmplace, initResponse]
  · intro st m i hw hne hop hog hintro
    have hlen : st.sim_client_lookup.length > 0 := List.length_pos.mpr hne
    simp [handle_message, hop, handle_init, hintro, hog, hw, hlen, initResponse]

/-- A SIM INIT frame carrying IntroDetails (identifier `s1`). -/
def c5_sim_init : Nsbm :=
  { Nsbm.defaultVal with
    manifest := { op := .INIT, og := .SIM_CLIENT, code := .SUCCESS }
    intro := some { identifier := "s1", address := "10.0.0.1", ch_ctrl := 1, ch_send := 2, ch_recv := 3 } }

/-- Witness for C5 (amended), at concrete inputs: (a) from the state already
holding the sentinel simulator, handling the intro-less SIM INIT keeps the
lookup at one entry; (b) from a fresh daemon, a SIM INIT registers the
sentinel entry with SUCCESS; (c) against the occupied lookup, the same INIT
is refused with FAILURE and changes nothing. -/
theorem system_wide_single_simulator_witness :
    ((runMessages c5_state [c5_introless_init]).sim_client_lookup.length ≤ 1) ∧
    ((handle_message (initState pullConfig) c5_sim_init).state.sim_client_lookup
        = [("simulator", ClientDetails.ofMsg c5_sim_init (initState pullConfig).fd_lookup)] ∧
      ∃ r, (handle_message (initState pullConfig) c5_sim_init).response = some r ∧
        r.manifest = { op := .INIT, og := .DAEMON, code := .SUCCESS }) ∧
    ((handle_message c5_state c5_sim_init).state = c5_state ∧
      ∃ r, (handle_message c5_state c5_sim_init).response = some r ∧
        r.manifest = { op := .INIT, og := .DAEMON, code := .FAILURE }) :=
  ⟨system_wide_single_simulator.1 c5_state [c5_introless_init] rfl (by decide),
    system_wide_single_simulator.2.1 (initState pullConfig) c5_sim_init
      { identifier := "s1", address := "10.0.0.1", ch_ctrl := 1, ch_send := 2, ch_recv := 3 }
      rfl rfl rfl rfl rfl,
    system_wide_single_simulator.2.2 c5_state c5_sim_init
      { identifier := "s1", address := "10.0.0.1", ch_ctrl := 1, ch_send := 2, ch_recv := 3 }
      rfl (by decide) rfl rfl rfl⟩

/-- C6 (amended): an APP INIT whose intro identifier is already registered
leaves `app_client_lookup` completely unchanged — `std::map::emplace` does
not overwrite, so the registry keeps the OLD ClientDetails — while the INIT
is nonetheless answered `{INIT, DAEMON, SUCCESS}`. -/
theorem duplicate_app_init_lookup_unchanged (st : DaemonState) (m : Nsbm) (i : IntroDetails)
    (hop : m.manifest.op = .INIT) (hog : m.manifest.og = .APP_CLIENT)
    (hintro : m.intro = some i)
    (hdup : (st.app_client_lookup.lookup i.identifier).isSome = true) :
    (handle_message st m).state.app_client_lookup = st.app_client_lookup ∧
    ∃ r, (handle_message st m).response = some r ∧
      r.manifest = { op := .INIT, og := .DAEMON, code := .SUCCESS } := by
  simp [handle_message, hop, handle_init, hintro, hog, initResponse, mapEmplace, hdup]

/-- Daemon state with app `n1` registered once (first INIT already handled). -/
def c6_state1 : DaemonState := runMessages (initState pullConfig) [c6_init1]

/-- Witness for C6 (amended): replaying identifier `n1` with different
details leaves the registry as it was and still reports SUCCESS. -/
theorem duplicate_app_init_lookup_unchanged_witness :
    (handle_message c6_state1 c6_init2).state.app_client_lookup
        = c6_state1.app_client_lookup ∧
    ∃ r, (handle_message c6_state1 c6_init2).response = some r ∧
      r.manifest = { op := .INIT, og := .DAEMON, code := .SUCCESS } :=
  duplicate_app_init_lookup_unchanged c6_state1 c6_init2
    { identifier := "n1", address := "10.0.0.2", ch_ctrl := 4, ch_send := 5, ch_recv := 6 }
    rfl rfl rfl (by decide)

/-- Every entry of a post-step buffer is either a pre-step entry or the
entry built from the handled message (and then the message was a SEND for
`tx_buffer`, a POST for `rx_buffer`). -/
theorem handle_message_buffer_membership (st : DaemonState) (m : Nsbm) :
    (∀ e ∈ (handle_message st m).state.tx_buffer,
      e ∈ st.tx_buffer ∨ (m.manifest.op = .SEND ∧ e = entryOfMsg st.cfg m)) ∧
    (∀ e ∈ (handle_message st m).state.rx_buffer,
      e ∈ st.rx_buffer ∨ (m.manifest.op = .POST ∧ e = entryOfMsg st.cfg m)) := by
  cases hop : m.manifest.op
  case SEND =>
    have hi : handle_message st m = handle_send st m := by simp only [handle_message, hop]
    rw [hi]
    unfold handle_send silently
    constructor
    · intro e he
      revert he
      repeat' split
      all_goals intro he
      all_goals simp_all
    · intro e he
      revert he
      repeat' split
      all_goals intro he
      all_goals simp_all
  case POST =>
    have hi : handle_message st m = handle_post st m := by simp only [handle_message, hop]
    rw [hi]
    unfold handle_post silently
    constructor
    · intro e he
      revert he
      repeat' split
      all_goals intro he
      all_goals simp_all
    · intro e he
      revert he
      repeat' split
      all_goals intro he
      all_goals simp_all
  case FETCH =>
    have hi : handle_message st m = handle_fetch st m := by simp only [handle_message, hop]
    rw [hi]
    unfold handle_fetch
    constructor
    · intro e he
      revert he
      repeat' split
      all_goals intro he
      all_goals simp_all
    · intro e he
      exact Or.inl he
  case INIT =>
    have hi : handle_message st m = handle_init st m := by simp only [handle_message, hop]
    rw [hi]
    unfold handle_init initResponse silently
    constructor
    · intro e he
      revert he
      repeat' split
      all_goals intro he
      all_goals exact Or.inl he
    · intro e he
      revert he
      repeat' split
      all_goals intro he
      all_goals exact Or.inl he
  all_goals
    simp only [handle_message, hop, handle_ping, handle_receive, silently]
  all_goals exact ⟨fun e he => Or.inl he, fun e he => Or.inl he⟩

/-- The C7 invariant: every buffered entry names a non-empty source and a
non-empty destination. -/
def buffersWellFormed (st : DaemonState) : Prop :=
  (∀ e ∈ st.tx_buffer, e.source ≠ "" ∧ e.destination ≠ "") ∧
  (∀ e ∈ st.rx_buffer, e.source ≠ "" ∧ e.destination ≠ "")

/-- Auxiliary induction for the C7 invariant over a run of messages. -/
theorem runMessages_buffersWellFormed (msgs : List Nsbm) :
    ∀ st : DaemonState, buffersWellFormed st →
      (∀ m ∈ msgs, (m.manifest.op = .SEND ∨ m.manifest.op = .POST) →
        m.metadataD.srcId ≠ "" ∧ m.metadataD.destId ≠ "") →
      buffersWellFormed (runMessages st msgs) := by
  induction msgs with
  | nil => intro st h _; exact h
  | cons m rest ih =>
    intro st h hmsgs
    show buffersWellFormed (runMessages (handle_message st m).state rest)
    apply ih
    · constructor
      · intro e he
        rcases (handle_message_buffer_membership st m).1 e he with h1 | ⟨hop, rfl⟩
        · exact h.1 e h1
        · exact hmsgs m (List.mem_cons_self m rest) (Or.inl hop)
      · intro e he
        rcases (handle_message_buffer_membership st m).2 e he with h1 | ⟨hop, rfl⟩
        · exact h.2 e h1
        · exact hmsgs m (List.mem_cons_self m rest) (Or.inr hop)
    · exact fun x hx => hmsgs x (List.mem_cons_of_mem m hx)

/-- C7 (amended): if every handled SEND and POST carries a non-empty
`src_id` and `dest_id` (as all frames built by the clients do, the client
identifier being non-empty), then in every reachable daemon state each
`MessageEntry` of `tx_buffer` and `rx_buffer` has a non-empty source and
destination; a SEND or POST whose ids are empty strings breaks the
invariant (see the counterexample). -/
theorem buffers_nonempty_ids_invariant (msgs : List Nsbm) (st : DaemonState)
    (hstart : buffersWellFormed st)
    (hmsgs : ∀ m ∈ msgs, (m.manifest.op = .SEND ∨ m.manifest.op = .POST) →
      m.metadataD.srcId ≠ "" ∧ m.metadataD.destId ≠ "") :
    buffersWellFormed (runMessages st msgs) :=
  runMessages_buffersWellFormed msgs st hstart hmsgs

/-- Witness for C7 (amended): a concrete run — one SEND, one POST, both with
non-empty ids — ends with well-formed buffers. -/
theorem buffers_nonempty_ids_invariant_witness :
    buffersWellFormed
      (runMessages (initState pullConfig) [appSendFrame "n1" "n2" "x" false "", c2_post]) :=
  buffers_nonempty_ids_invariant [appSendFrame "n1" "n2" "x" false "", c2_post]
    (initState pullConfig) (by constructor <;> simp [initState]) (by decide)

/-- C8 (amended): an INIT without IntroDetails, or whose originator is
neither APP_CLIENT nor SIM_CLIENT, is dropped silently: the daemon sends no
reply of any kind (in particular no FAILURE), forwards nothing, and changes
no state.  A FAILURE INIT reply exists only for the duplicate SYSTEM_WIDE
simulator case. -/
theorem invalid_init_dropped_without_reply (st : DaemonState) (m : Nsbm)
    (hop : m.manifest.op = .INIT)
    (hbad : m.intro = none ∨ m.manifest.og = .DAEMON) :
    (handle_message st m).response = none ∧
    (handle_message st m).state = st ∧
    (handle_message st m).forwards = [] := by
  rcases hbad with h | h
  · simp [handle_message, hop, handle_init, h, silently]
  · cases hi : m.intro with
    | none => simp [handle_message, hop, handle_init, hi, silently]
    | some i => simp [handle_message, hop, handle_init, hi, h, silently]

/-- Witness for C8 (amended): the DAEMON-originated INIT is dropped with no
response, no state change, no forwards. -/
theorem invalid_init_dropped_without_reply_witness :
    (handle_message (initState pullConfig) c8_unknown_og_init).response = none ∧
    (handle_message (initState pullConfig) c8_unknown_og_init).state = initState pullConfig ∧
    (handle_message (initState pullConfig) c8_unknown_og_init).forwards = [] :=
  invalid_init_dropped_without_reply (initState pullConfig) c8_unknown_og_init rfl (Or.inr rfl)

/-- C9 (amended): a POST whose manifest code is NO_MESSAGE changes no daemon
state (buffers and registries untouched) and draws no response in either
mode, and in PULL mode nothing is forwarded either; but in PUSH mode
`handle_post` ignores the code, so such a POST can still emit a FORWARD
frame to a registered destination (see the counterexample). -/
theorem no_message_post_changes_no_state (st : DaemonState) (m : Nsbm)
    (hop : m.manifest.op = .POST) (hcode : m.manifest.code = .NO_MESSAGE) :
    (handle_message st m).state = st ∧
    (handle_message st m).response = none ∧
    (st.cfg.SYSTEM_MODE = .PULL → (handle_message st m).forwards = []) := by
  have hi : handle_message st m = handle_post st m := by simp only [handle_message, hop]
  rw [hi]
  cases hmode : st.cfg.SYSTEM_MODE with
  | PULL =>
      have hne : ¬ m.manifest.code = .MESSAGE := by rw [hcode]; decide
      simp [handle_post, hmode, hne, silently]
  | PUSH =>
      unfold handle_post
      rw [hmode]
      refine ⟨?_, ?_, ?_⟩
      · repeat' split
        all_goals first | rfl | simp_all
      · repeat' split
        all_goals first | rfl | simp_all
      · intro hpull
        cases hpull

/-- Witness for C9 (amended): in PULL mode, the concrete NO_MESSAGE POST
leaves the fresh daemon untouched, with no response and no forwards. -/
theorem no_message_post_changes_no_state_witness :
    (handle_message (initState pullConfig) c9_no_message_post).state = initState pullConfig ∧
    (handle_message (initState pullConfig) c9_no_message_post).response = none ∧
    ((initState pullConfig).cfg.SYSTEM_MODE = .PULL →
      (handle_message (initState pullConfig) c9_no_message_post).forwards = []) :=
  no_message_post_changes_no_state (initState pullConfig) c9_no_message_post rfl rfl

/-- C10: the POST frame emitted by `NSBSimClient::post(srcId, destId,
payload)` carries metadata `src_id` equal to the client's own identifier,
for every value of the `srcId` argument — the argument has no effect on the
emitted frame at all — and the manifest is `{POST, SIM_CLIENT, MESSAGE}`. -/
theorem sim_post_src_id_is_client_id (clientId srcId srcId' destId payload : String)
    (useDb : Bool) (dbKey : String) :
    simPostFrame clientId srcId destId payload useDb dbKey
      = simPostFrame clientId srcId' destId payload useDb dbKey ∧
    (simPostFrame clientId srcId destId payload useDb dbKey).metadataD.src_id
      = some clientId ∧
    (simPostFrame clientId srcId destId payload useDb dbKey).manifest
      = { op := .POST, og := .SIM_CLIENT, code := .MESSAGE } := by
  refine ⟨rfl, rfl, rfl⟩

end NSB
